import Mathlib

/-!
Verification of the ObsidianMind task-orchestration repository.

Shallow embedding of the components the claims concern:
* `ToolManager` (src/api/services/tools/ToolManager.ts): argument validation,
  command construction and external tool execution.
* `POCManager` (src/api/services/poc/POCManager.ts): sandboxed verification-code
  execution and stdout classification.
* `ReportGenerator` (src/api/services/ReportGenerator.ts): report format dispatch.
* `TaskManager` (the task-execution orchestrator): task creation, the staged
  pipeline, progress persistence and the control operations.

Stateful TypeScript code is embedded as explicit state passing; subprocess
launches and database writes are recorded as explicit event values so that the
theorems can talk about what was spawned or persisted.  Wall-clock reads
(`Date.now()` / `new Date()`) are supplied as explicit `Nat` parameters.
-/

namespace ObsidianMind

/-! ## Tool Invocation Safety Layer (src/api/services/tools/ToolManager.ts) -/

/-- Per-tool static configuration (interface `ToolConfig`). -/
structure ToolConfig where
  name : String
  command : String
  version : String
  timeout : Nat
  allowedArgs : List String
  outputFormat : String
deriving DecidableEq

/-- A tool invocation request (interface `ToolExecution`). -/
structure ToolExecution where
  toolName : String
  args : List String
  target : String
  timeout : Option Nat := none
deriving DecidableEq

/-- Result of `executeTool` (interface `ToolResult`; the wall-clock
`executionTime` field is elided, and `parsedData` is not modelled since no
claim concerns the tool-specific output parsers). -/
structure ToolResult where
  success : Bool
  output : String
  error : Option String
  exitCode : Int
deriving DecidableEq

/-- An external process launch, as observable at the `child_process` boundary:
either one shell command line handed to `exec` (shell interpolation applies),
or an argv vector handed to `spawn` (no shell). -/
inductive Launch where
  | shellStr (cmd : String)
  | argvVec (cmd : String) (args : List String)
deriving DecidableEq

/-- Outcome of the underlying `exec` call, supplied as an oracle: success
carries (stdout, stderr); failure carries (message, partial stdout, exit code). -/
inductive ExecOutcome where
  | succeeded (stdout stderr : String)
  | failedExec (message stdout : String) (code : Option Int)
deriving DecidableEq

/-- The five shell metacharacters of the regex `/[;&|`$]/` in `validateArgs`
(the backquote is written by code point). -/
def dangerousChars : List Char := [';', '&', '|', Char.ofNat 96, '$']

/-- Test of the regex over the argument: does it contain a shell metacharacter? -/
def hasDangerousChar (arg : String) : Bool :=
  arg.data.any (fun c => dangerousChars.contains c)

/-- Characters before the first space. -/
def takeUntilSpace : List Char → List Char
  | [] => []
  | c :: t => if c = ' ' then [] else c :: takeUntilSpace t

/-- First space-separated component of a flag (source: arg.split on a space, index 0). -/
def baseArgOf (arg : String) : String :=
  String.mk (takeUntilSpace arg.data)

/-- JavaScript startsWith over the underlying character lists (kept structural
so that concrete instances evaluate). -/
def jsStartsWith (s pre : String) : Bool :=
  pre.data.isPrefixOf s.data

/-- Space-joined argument list (source: args.join with a space separator). -/
def joinArgs : List String → String
  | [] => ""
  | [a] => a
  | a :: rest => a ++ " " ++ joinArgs rest

/-- Embeds `ToolManager.validateArgs` (lines 172-189): returns `some errorMessage` on
the first offending argument, `none` when every argument passes.  Flags
(arguments starting with `-`) must additionally start with an allow-listed
prefix. -/
def validateArgs : List String → List String → Option String
  | [], _ => none
  | arg :: rest, allowedArgs =>
    if hasDangerousChar arg then
      some ("Argument contains dangerous characters: " ++ arg)
    else if jsStartsWith arg "-"
        && !(allowedArgs.any (fun allowed => jsStartsWith (baseArgOf arg) allowed)) then
      some ("Argument not allowed: " ++ arg)
    else
      validateArgs rest allowedArgs

/-- Embeds `ToolManager.buildCommand` (lines 191-194): concatenates command, the
space-joined arguments and the target into one shell command string. -/
def buildCommand (toolConfig : ToolConfig) (execution : ToolExecution) : String :=
  toolConfig.command ++ " " ++ joinArgs execution.args ++ " " ++ execution.target

/-- The four default tool configurations of `initializeDefaultTools`. -/
def defaultTools : List (String × ToolConfig) :=
  [("nmap",
    { name := "nmap", command := "nmap", version := "7.93", timeout := 300000,
      allowedArgs := ["-sS", "-sT", "-sU", "-O", "-sV", "-p", "-Pn", "-A", "-T4"],
      outputFormat := "text" }),
   ("sqlmap",
    { name := "sqlmap", command := "sqlmap", version := "1.7", timeout := 600000,
      allowedArgs := ["--batch", "--random-agent", "--level", "--risk", "--threads"],
      outputFormat := "text" }),
   ("nikto",
    { name := "nikto", command := "nikto", version := "2.5.0", timeout := 300000,
      allowedArgs := ["-h", "-p", "-Tuning", "-Plugins"],
      outputFormat := "text" }),
   ("dirb",
    { name := "dirb", command := "dirb", version := "2.22", timeout := 300000,
      allowedArgs := ["-w", "-t", "-r", "-l"],
      outputFormat := "text" })]

/-- Embeds `ToolManager.executeTool` (lines 91-170).  Returns the `ToolResult`
together with the list of process launches performed (empty when the
invocation is rejected before execution).  The process behaviour is an
`oracle` from the concatenated command line to its outcome. -/
def executeTool (tools : List (String × ToolConfig)) (oracle : String → ExecOutcome)
    (execution : ToolExecution) : ToolResult × List Launch :=
  match (tools.find? (fun p => p.1 == execution.toolName)).map Prod.snd with
  | none =>
    ({ success := false, output := "",
       error := some ("Tool " ++ execution.toolName ++ " not found"), exitCode := -1 }, [])
  | some toolConfig =>
    match validateArgs execution.args toolConfig.allowedArgs with
    | some err =>
      ({ success := false, output := "", error := some err, exitCode := -1 }, [])
    | none =>
      let command := buildCommand toolConfig execution
      match oracle command with
      | .succeeded stdout stderr =>
        ({ success := true, output := stdout,
           error := if stderr = "" then none else some stderr, exitCode := 0 },
         [Launch.shellStr command])
      | .failedExec message stdout code =>
        ({ success := false, output := stdout, error := some message,
           exitCode := code.getD (-1) },
         [Launch.shellStr command])

/-- Modelled from the spec: the launch shape §4.2 prescribes — "arguments are
passed as a vector, never concatenated into a shell string".  Used only to
compare the spec's prescription with what `executeTool` actually launches. -/
def specVectorLaunch (toolConfig : ToolConfig) (execution : ToolExecution) : Launch :=
  Launch.argvVec toolConfig.command (execution.args ++ [execution.target])

/-- Helper: validation cannot succeed while some argument carries a
shell metacharacter. -/
theorem validateArgs_isSome_of_dangerous (args allowedArgs : List String) (a : String)
    (ha : a ∈ args) (hd : hasDangerousChar a = true) :
    (validateArgs args allowedArgs).isSome = true := by
  induction args with
  | nil => cases ha
  | cons x rest ih =>
    rcases List.mem_cons.mp ha with rfl | hmem
    · simp [validateArgs, hd]
    · by_cases hx : hasDangerousChar x = true
      · simp [validateArgs, hx]
      · simp only [validateArgs, hx]
        split
        · simp
        · split
          · simp
          · exact ih hmem

/-- C1: if any argument contains one of the shell metacharacters `; & | $`
or a backquote, `executeTool` rejects the invocation — the result is
unsuccessful with an error message — and no subprocess is launched at all. -/
theorem executeTool_rejects_dangerous_args
    (tools : List (String × ToolConfig)) (oracle : String → ExecOutcome)
    (execution : ToolExecution) (a : String)
    (ha : a ∈ execution.args) (hd : hasDangerousChar a = true) :
    (executeTool tools oracle execution).1.success = false ∧
    (executeTool tools oracle execution).1.error.isSome = true ∧
    (executeTool tools oracle execution).2 = [] := by
  unfold executeTool
  cases hfind : (tools.find? (fun p => p.1 == execution.toolName)).map Prod.snd with
  | none => exact ⟨rfl, rfl, rfl⟩
  | some toolConfig =>
    have hv := validateArgs_isSome_of_dangerous execution.args toolConfig.allowedArgs a ha hd
    cases hval : validateArgs execution.args toolConfig.allowedArgs with
    | none => rw [hval] at hv; cases hv
    | some err => simp [hval]

/-- C1 witness: the argument list `["; rm -rf /"]` is rejected for the
configured tool `nmap` with zero process launches. -/
theorem executeTool_rejects_dangerous_args_witness :
    (executeTool defaultTools (fun _ => ExecOutcome.succeeded "" "")
        { toolName := "nmap", args := ["; rm -rf /"], target := "example.com" }).1.success
      = false ∧
    (executeTool defaultTools (fun _ => ExecOutcome.succeeded "" "")
        { toolName := "nmap", args := ["; rm -rf /"], target := "example.com" }).1.error.isSome
      = true ∧
    (executeTool defaultTools (fun _ => ExecOutcome.succeeded "" "")
        { toolName := "nmap", args := ["; rm -rf /"], target := "example.com" }).2
      = [] :=
  executeTool_rejects_dangerous_args defaultTools (fun _ => ExecOutcome.succeeded "" "")
    { toolName := "nmap", args := ["; rm -rf /"], target := "example.com" }
    "; rm -rf /" (by decide) (by decide)

/-- C2 counterexample: the validated invocation of `nmap` with allow-listed
argument `-sS` and target `example.com` launches exactly one process, and that
launch is the single concatenated shell command string
`"nmap -sS example.com"` handed to `exec` — not the argv vector the claim
(and spec §4.2) prescribe.  This refutes "they are never concatenated into a
single shell command string". -/
theorem executeTool_launch_is_concatenated_shell_string :
    (executeTool defaultTools (fun _ => ExecOutcome.succeeded "" "")
        { toolName := "nmap", args := ["-sS"], target := "example.com" }).2
      = [Launch.shellStr "nmap -sS example.com"] ∧
    Launch.shellStr "nmap -sS example.com"
      ≠ specVectorLaunch
          { name := "nmap", command := "nmap", version := "7.93", timeout := 300000,
            allowedArgs := ["-sS", "-sT", "-sU", "-O", "-sV", "-p", "-Pn", "-A", "-T4"],
            outputFormat := "text" }
          { toolName := "nmap", args := ["-sS"], target := "example.com" } := by
  constructor
  · rfl
  · decide

/-- C2 amended: for every invocation that passes validation, `executeTool`
launches exactly one external process, and it is the single shell command
string built by `buildCommand` — the concatenation of the command name, the
space-joined arguments and the target — so shell interpolation does apply and
injection protection rests solely on the metacharacter check. -/
theorem executeTool_launches_shell_string
    (tools : List (String × ToolConfig)) (oracle : String → ExecOutcome)
    (execution : ToolExecution) (toolConfig : ToolConfig)
    (hfind : (tools.find? (fun p => p.1 == execution.toolName)).map Prod.snd = some toolConfig)
    (hval : validateArgs execution.args toolConfig.allowedArgs = none) :
    (executeTool tools oracle execution).2
      = [Launch.shellStr (buildCommand toolConfig execution)] := by
  unfold executeTool
  rw [hfind]
  dsimp only
  rw [hval]
  dsimp only
  cases oracle (buildCommand toolConfig execution) <;> rfl

/-- C2 amended, witness: the `nmap -sS example.com` invocation passes
validation and is launched as the concatenated shell string. -/
theorem executeTool_launches_shell_string_witness :
    (executeTool defaultTools (fun _ => ExecOutcome.succeeded "" "")
        { toolName := "nmap", args := ["-sS"], target := "example.com" }).2
      = [Launch.shellStr
          (buildCommand
            { name := "nmap", command := "nmap", version := "7.93", timeout := 300000,
              allowedArgs := ["-sS", "-sT", "-sU", "-O", "-sV", "-p", "-Pn", "-A", "-T4"],
              outputFormat := "text" }
            { toolName := "nmap", args := ["-sS"], target := "example.com" })] :=
  executeTool_launches_shell_string defaultTools (fun _ => ExecOutcome.succeeded "" "")
    { toolName := "nmap", args := ["-sS"], target := "example.com" }
    { name := "nmap", command := "nmap", version := "7.93", timeout := 300000,
      allowedArgs := ["-sS", "-sT", "-sU", "-O", "-sV", "-p", "-Pn", "-A", "-T4"],
      outputFormat := "text" }
    (by decide) (by decide)

/-! ## Verification Sandbox Executor (src/api/services/poc/POCManager.ts) -/

/-- Helper for JavaScript `String.prototype.includes`: is `sub` a contiguous
sublist of `s`? -/
def listContainsSub (sub : List Char) : List Char → Bool
  | [] => sub.isPrefixOf []
  | c :: t => sub.isPrefixOf (c :: t) || listContainsSub sub t

/-- JavaScript `stdout.includes(indicator)`: substring containment. -/
def jsIncludes (s sub : String) : Bool :=
  listContainsSub sub.data s.data

/-- The supported verification-code languages of `executePOC`'s dispatch
(`python`, `javascript`, `bash`/`shell`); any other language throws
`Unsupported language` before execution. -/
inductive POCLang where
  | python
  | javascript
  | shell
deriving DecidableEq

/-- Positive-indicator vocabulary of `analyzePythonOutput` (lines 967-978). -/
def pythonIndicators : List String :=
  ["漏洞可能存在", "vulnerable", "VULNERABILITY", "检测到", "发现", "[+]"]

/-- Positive-indicator vocabulary of `analyzeJavaScriptOutput` (lines 980-991). -/
def javascriptIndicators : List String :=
  ["vulnerability", "VULNERABILITY", "漏洞", "检测到", "发现", "[!]"]

/-- Positive-indicator vocabulary of `analyzeShellOutput` (lines 993-1003). -/
def shellIndicators : List String :=
  ["VULNERABLE", "vulnerable", "漏洞", "成功", "detected"]

/-- The language-specific indicator vocabulary. -/
def langIndicators : POCLang → List String
  | .python => pythonIndicators
  | .javascript => javascriptIndicators
  | .shell => shellIndicators

/-- Embeds `analyzePythonOutput`: scans stdout (and only stdout — the stderr
parameter is ignored by the source) for a positive indicator. -/
def analyzePythonOutput (stdout _stderr : String) : Bool :=
  pythonIndicators.any (fun indicator => jsIncludes stdout indicator)

/-- Embeds `analyzeJavaScriptOutput`. -/
def analyzeJavaScriptOutput (stdout _stderr : String) : Bool :=
  javascriptIndicators.any (fun indicator => jsIncludes stdout indicator)

/-- Embeds `analyzeShellOutput`. -/
def analyzeShellOutput (stdout _stderr : String) : Bool :=
  shellIndicators.any (fun indicator => jsIncludes stdout indicator)

/-- Result of a sandboxed verification run (interface `POCResult`; the
wall-clock `executionTime` field is elided). -/
structure POCResult where
  success : Bool
  vulnerabilityConfirmed : Bool
  output : String
  error : Option String
  reliabilityScore : Nat
deriving DecidableEq

/-- Embeds the `close`-event handler shared by `executePythonPOC`
(lines 843-854), `executeJavaScriptPOC` and `executeShellPOC`: classify the
captured stdout with the language's analyzer and score 80 when confirmed,
20 otherwise. -/
def pocCloseResult (lang : POCLang) (exitCode : Int) (stdout stderr : String) : POCResult :=
  let vulnerabilityConfirmed :=
    match lang with
    | .python => analyzePythonOutput stdout stderr
    | .javascript => analyzeJavaScriptOutput stdout stderr
    | .shell => analyzeShellOutput stdout stderr
  { success := exitCode == 0
    vulnerabilityConfirmed
    output := stdout
    error := if stderr = "" then none else some stderr
    reliabilityScore := if vulnerabilityConfirmed then 80 else 20 }

/-- C9: for every supported language, `confirmed` is exactly "some
language-specific positive indicator occurs in stdout" (stderr and the exit
code are irrelevant); when an indicator occurs the reliability score is 80,
strictly above the 20 of the unconfirmed baseline, and when no indicator
occurs — in particular when the program prints nothing — the result is
unconfirmed. -/
theorem pocCloseResult_confirmed_iff_indicator
    (lang : POCLang) (exitCode : Int) (stdout stderr : String) :
    ((pocCloseResult lang exitCode stdout stderr).vulnerabilityConfirmed
        = (langIndicators lang).any (fun indicator => jsIncludes stdout indicator)) ∧
    ((langIndicators lang).any (fun indicator => jsIncludes stdout indicator) = true →
      (pocCloseResult lang exitCode stdout stderr).vulnerabilityConfirmed = true ∧
      20 < (pocCloseResult lang exitCode stdout stderr).reliabilityScore) ∧
    ((langIndicators lang).any (fun indicator => jsIncludes stdout indicator) = false →
      (pocCloseResult lang exitCode stdout stderr).vulnerabilityConfirmed = false ∧
      (pocCloseResult lang exitCode stdout stderr).reliabilityScore = 20) := by
  cases lang <;>
    · dsimp only [pocCloseResult, langIndicators, analyzePythonOutput,
        analyzeJavaScriptOutput, analyzeShellOutput]
      refine ⟨rfl, fun h => ?_, fun h => ?_⟩ <;> rw [h] <;> exact ⟨rfl, by decide⟩

/-- C9 witness: a Python job printing the indicator token `[+]` is confirmed
with score 80 > 20; a Python job printing nothing is unconfirmed with the
baseline score 20. -/
theorem pocCloseResult_confirmed_iff_indicator_witness :
    ((pocCloseResult .python 0 "[+] target vulnerable" "").vulnerabilityConfirmed = true ∧
      20 < (pocCloseResult .python 0 "[+] target vulnerable" "").reliabilityScore) ∧
    ((pocCloseResult .python 0 "" "").vulnerabilityConfirmed = false ∧
      (pocCloseResult .python 0 "" "").reliabilityScore = 20) :=
  ⟨(pocCloseResult_confirmed_iff_indicator .python 0 "[+] target vulnerable" "").2.1 (by decide),
   (pocCloseResult_confirmed_iff_indicator .python 0 "" "").2.2 (by decide)⟩

/-! ## Report generation (src/api/services/ReportGenerator.ts) -/

/-- Outcome of `ReportGenerator.generateReport` as far as format dispatch is
concerned: whether the call succeeds, which file extension the stored artifact
gets, what content is written, and the error message if any. -/
structure ReportGenResult where
  success : Bool
  fileExtension : String
  content : String
  error : Option String
deriving DecidableEq

/-- Embeds the format switch of `ReportGenerator.generateReport`
(lines 343-397).  `htmlRender` and `jsonRender` stand for the rendered
outputs of `generateHTMLReport` / `generateJSONReport`.  The `pdf` case of the
source generates the HTML content, stores it under a `.pdf` extension and
returns success (its comment notes a PDF conversion library would be needed);
only unknown formats throw `Unsupported report format`, which the surrounding
catch turns into a failure result. -/
def generateReportDispatch (format htmlRender jsonRender : String) : ReportGenResult :=
  if format = "html" then
    { success := true, fileExtension := "html", content := htmlRender, error := none }
  else if format = "json" then
    { success := true, fileExtension := "json", content := jsonRender, error := none }
  else if format = "pdf" then
    { success := true, fileExtension := "pdf", content := htmlRender, error := none }
  else
    { success := false, fileExtension := "", content := "",
      error := some ("Unsupported report format: " ++ format) }

/-- C8 (code bug): a report request with format `pdf` does NOT produce a
"not supported" error — `generateReport` silently degrades, returning success
with the HTML-rendered content stored under a `.pdf` file extension, for every
rendered report. -/
theorem generateReport_pdf_silently_degrades (htmlRender jsonRender : String) :
    generateReportDispatch "pdf" htmlRender jsonRender
      = { success := true, fileExtension := "pdf", content := htmlRender, error := none } :=
  rfl

/-! ## Task Execution Orchestrator (`TaskManager`)

State is threaded explicitly: `SysState` carries the in-memory
`activeExecutions` map, the three SQLite tables (tasks, executions, logs) and
the Bull queue.  Bull assigns its own job keys (an incrementing counter,
rendered in decimal) when `taskQueue.add` is called without an explicit id, so
the queue is keyed by those strings, while `TaskManager` stores and looks up
by the uuid `jobId` — the two id spaces are disjoint in the running system.
Database writes performed during `executeTask` are additionally recorded as an
ordered `DbEvent` list so theorems can speak about the persisted sequence. -/

/-- Execution status (the `status` union of interface `TaskExecution`). -/
inductive TaskStatus where
  | pending
  | running
  | paused
  | completed
  | failed
  | cancelled
deriving DecidableEq

/-- A finding returned by the chain engine (only the fields the orchestrator
touches are modelled; `pocResult` is collapsed into `pocVerified`). -/
structure Vuln where
  vid : String
  title : String
  severity : String
  pocVerified : Bool := false
deriving DecidableEq

/-- In-memory execution record (interface `TaskExecution`); timestamps are
epoch milliseconds. -/
structure TaskExecution where
  jobId : String
  taskId : String
  status : TaskStatus
  progress : Nat
  currentStage : String
  results : List String
  vulnerabilities : List Vuln
  logs : List String
  startedAt : Option Nat := none
  completedAt : Option Nat := none
  error : Option String := none
deriving DecidableEq

/-- Task submission payload (interface `TaskConfig`; the AI-model credentials
block is collapsed to the provider string, which is all the orchestrator's
persisted state uses). -/
structure TaskConfig where
  id : String
  name : String
  target : String
  aiModel : String
  priority : Nat
  scheduledAt : Option Nat := none
deriving DecidableEq

/-- Row of the `executions` table (`db.upsertExecution` payload). -/
structure ExecutionRow where
  jobId : String
  taskId : String
  status : TaskStatus
  progress : Nat
  currentStage : String
  startedAt : Option Nat
  completedAt : Option Nat
  error : Option String
deriving DecidableEq

/-- Row of the `tasks` table (`db.upsertTask` payload). -/
structure TaskRow where
  id : String
  name : String
  target : String
  aiModel : String
  priority : Nat
  scheduledAt : Option Nat
  createdAt : Nat
deriving DecidableEq

/-- Row of the append-only `logs` table (`db.appendLog` payload; the random
uuid of each row is elided). -/
structure LogRow where
  jobId : String
  message : String
  ts : Nat
deriving DecidableEq

/-- A job sitting in the Bull queue.  `bullId` is the key Bull assigned on
`add` (decimal counter rendering), distinct from the uuid `jobId` carried in
the job's data payload. -/
structure QueueEntry where
  bullId : String
  jobId : String
  priority : Nat
deriving DecidableEq

/-- The orchestrator's full observable state. -/
structure SysState where
  activeExecutions : List (String × TaskExecution)
  dbTasks : List TaskRow
  dbExecutions : List ExecutionRow
  dbLogs : List LogRow
  queue : List QueueEntry
  nextBullId : Nat
  deferredInline : List String
deriving DecidableEq

/-- `activeExecutions.get(jobId)`. -/
def lookupActive (st : SysState) (jobId : String) : Option TaskExecution :=
  (st.activeExecutions.find? (fun p => p.1 == jobId)).map Prod.snd

/-- `activeExecutions.set(jobId, e)` (observationally: newest binding wins). -/
def setActive (st : SysState) (jobId : String) (e : TaskExecution) : SysState :=
  { st with activeExecutions :=
      (jobId, e) :: st.activeExecutions.filter (fun p => p.1 != jobId) }

/-- `db.upsertExecution(row)`: one row per job id. -/
def upsertExecutionDb (st : SysState) (row : ExecutionRow) : SysState :=
  { st with dbExecutions :=
      row :: st.dbExecutions.filter (fun r => r.jobId != row.jobId) }

/-- `db.appendLog(row)`: append-only. -/
def appendLogDb (st : SysState) (row : LogRow) : SysState :=
  { st with dbLogs := st.dbLogs ++ [row] }

/-- `db.getExecution(jobId)`. -/
def getExecutionDb (st : SysState) (jobId : String) : Option ExecutionRow :=
  st.dbExecutions.find? (fun r => r.jobId == jobId)

/-- `taskQueue.getJob(jobId)`: Bull looks the job up by its own key space. -/
def getQueueJob (st : SysState) (jobId : String) : Option QueueEntry :=
  st.queue.find? (fun entry => entry.bullId == jobId)

/-- Embeds `TaskManager.createTask` (lines 127-196): append a creation log
line, install the fresh in-memory record (`pending`, progress 0), persist the
task definition and the initial execution row, then enqueue (Bull assigns the
next counter key) or — when the queue backend is unavailable — schedule a
deferred inline run via `setImmediate` (recorded in `deferredInline`; it runs
only after `createTask` has returned).  Returns `(taskId, jobId)`. -/
def createTask (st : SysState) (taskConfig : TaskConfig) (jobId : String) (now : Nat)
    (queueOk : Bool) : SysState × String × String :=
  let execution : TaskExecution :=
    { jobId, taskId := taskConfig.id, status := .pending, progress := 0,
      currentStage := "初始化中", results := [], vulnerabilities := [], logs := [] }
  let st := appendLogDb st
    { jobId, message := "INFO: 任务创建: " ++ taskConfig.name, ts := now }
  let st := setActive st jobId execution
  let st := { st with dbTasks :=
      { id := taskConfig.id, name := taskConfig.name, target := taskConfig.target,
        aiModel := taskConfig.aiModel, priority := taskConfig.priority,
        scheduledAt := taskConfig.scheduledAt, createdAt := now }
      :: st.dbTasks.filter (fun t => t.id != taskConfig.id) }
  let st := upsertExecutionDb st
    { jobId, taskId := taskConfig.id, status := .pending, progress := 0,
      currentStage := "初始化中", startedAt := none, completedAt := none, error := none }
  let st :=
    if queueOk then
      { st with
        queue := st.queue
          ++ [{ bullId := Nat.repr st.nextBullId, jobId, priority := taskConfig.priority }],
        nextBullId := st.nextBullId + 1 }
    else
      { st with deferredInline := st.deferredInline ++ [jobId] }
  (st, taskConfig.id, jobId)

/-- Embeds `TaskManager.getTaskStatus` (lines 431-451): prefer the in-memory
record; otherwise reconstruct from the executions row plus the persisted log
lines (results and vulnerabilities are not stored and come back empty). -/
def getTaskStatus (st : SysState) (jobId : String) : Option TaskExecution :=
  match lookupActive st jobId with
  | some inMem => some inMem
  | none =>
    match getExecutionDb st jobId with
    | none => none
    | some row =>
      some { jobId := row.jobId, taskId := row.taskId, status := row.status,
             progress := row.progress, currentStage := row.currentStage,
             results := [], vulnerabilities := [],
             logs := (st.dbLogs.filter (fun l => l.jobId == jobId)).map (fun l => l.message),
             startedAt := row.startedAt, completedAt := row.completedAt,
             error := row.error }

/-- Embeds `TaskManager.pauseTask` (lines 475-493): only when Bull can locate
the job under the given id is the in-memory status flipped to `paused`;
otherwise the call returns false and changes nothing. -/
def pauseTask (st : SysState) (jobId : String) : SysState × Bool :=
  match getQueueJob st jobId with
  | some _ =>
    let st' :=
      match lookupActive st jobId with
      | some execution => setActive st jobId { execution with status := .paused }
      | none => st
    (st', true)
  | none => (st, false)

/-- Embeds `TaskManager.resumeTask` (lines 495-513): symmetric to `pauseTask`,
setting status `running`. -/
def resumeTask (st : SysState) (jobId : String) : SysState × Bool :=
  match getQueueJob st jobId with
  | some _ =>
    let st' :=
      match lookupActive st jobId with
      | some execution => setActive st jobId { execution with status := .running }
      | none => st
    (st', true)
  | none => (st, false)

/-- Embeds `TaskManager.cancelTask` (lines 515-534): only when Bull can locate
the job is it removed from the queue and the in-memory record stamped
`cancelled`; otherwise the call returns false and changes nothing. -/
def cancelTask (st : SysState) (jobId : String) (now : Nat) : SysState × Bool :=
  match getQueueJob st jobId with
  | some entry =>
    let st := { st with queue := st.queue.filter (fun e => e.bullId != entry.bullId) }
    let st :=
      match lookupActive st jobId with
      | some execution =>
        setActive st jobId { execution with status := .cancelled, completedAt := some now }
      | none => st
    (st, true)
  | none => (st, false)

/-- A write to the Persistence Gateway performed during `executeTask`,
in order: an `upsertExecution` of the row's query-visible fields, or an
appended log line. -/
inductive DbEvent where
  | upsert (status : TaskStatus) (progress : Nat) (stage : String)
      (startedAt completedAt : Option Nat) (error : Option String)
  | appendLog (message : String)
deriving DecidableEq

/-- Outcome of `pentestEngine.executeChain` (the Chain Execution
Collaborator). -/
structure ChainOutcome where
  success : Bool
  results : List String
  vulnerabilities : List Vuln
deriving DecidableEq

/-- The external collaborators of one pipeline run: AI-service setup (may
throw), the chain call (may throw or return an unsuccessful outcome), and the
per-finding POC generation/execution (indexed by position; may throw, which
the source catches and only logs). -/
structure Collab where
  llmInit : Except String Unit
  chainRes : Except String ChainOutcome
  pocRes : Nat → Except String Bool

/-- The log message of `updateExecutionProgress`. -/
def progressLogMsg (stage : String) (progress : Nat) : String :=
  "INFO: " ++ stage ++ " - " ++ Nat.repr progress ++ "%"

/-- Embeds `TaskManager.updateExecutionProgress` (lines 536-554): set
progress/stage on the in-memory record, push the log line both in memory and
to the logs table, and upsert the executions row with the record's current
status, timestamps and error. -/
def updateExecutionProgress (e : TaskExecution) (progress : Nat) (stage : String) :
    TaskExecution × List DbEvent :=
  let msg := progressLogMsg stage progress
  ({ e with progress := progress, currentStage := stage, logs := e.logs ++ [msg] },
   [DbEvent.appendLog msg,
    DbEvent.upsert e.status progress stage e.startedAt e.completedAt e.error])

/-- Per-vulnerability POC verification loop of `executePentestChain`
(lines 363-389): a confirmed POC marks the finding verified and logs; an
unconfirmed result changes nothing; a thrown error is caught and only logged
to the process logger. -/
def pocLoop (collab : Collab) : Nat → List Vuln → TaskExecution →
    List Vuln × TaskExecution × List DbEvent
  | _, [], e => ([], e, [])
  | i, v :: rest, e =>
    match collab.pocRes i with
    | .ok true =>
      let msg := "INFO: 漏洞 " ++ v.title ++ " POC验证成功"
      let e := { e with logs := e.logs ++ [msg] }
      let r := pocLoop collab (i + 1) rest e
      ({ v with pocVerified := true } :: r.1, r.2.1, DbEvent.appendLog msg :: r.2.2)
    | .ok false =>
      let r := pocLoop collab (i + 1) rest e
      (v :: r.1, r.2.1, r.2.2)
    | .error _ =>
      let r := pocLoop collab (i + 1) rest e
      (v :: r.1, r.2.1, r.2.2)

/-- Embeds `TaskManager.executePentestChain` (lines 331-400): log the chain
start (memory + logs table), call the chain collaborator, fail on a thrown
error or an unsuccessful outcome; on success log the finding count (memory
only), and when findings exist record the 60% checkpoint and run the POC
loop.  Returns the updated record, the persisted events, and either the
(results, vulnerabilities) pair or the thrown error. -/
def executePentestChain (e : TaskExecution) (collab : Collab) :
    TaskExecution × List DbEvent × Except String (List String × List Vuln) :=
  let msg0 := "INFO: 开始执行渗透测试链"
  let e := { e with currentStage := "执行渗透测试链", logs := e.logs ++ [msg0] }
  let evs0 := [DbEvent.appendLog msg0]
  match collab.chainRes with
  | .error m => (e, evs0, .error m)
  | .ok result =>
    if result.success then
      let doneMsg :=
        "渗透测试链执行完成，发现 " ++ Nat.repr result.vulnerabilities.length ++ " 个漏洞"
      let e := { e with logs := e.logs ++ [doneMsg] }
      if result.vulnerabilities.isEmpty then
        (e, evs0, .ok (result.results, result.vulnerabilities))
      else
        let e := { e with currentStage := "POC漏洞验证" }
        let up := updateExecutionProgress e 60 "POC漏洞验证"
        let r := pocLoop collab 0 result.vulnerabilities up.1
        (r.2.1, evs0 ++ up.2 ++ r.2.2, .ok (result.results, r.1))
    else
      (e, evs0, .error "Pentest chain execution failed")

/-- Embeds `TaskManager.generateReport` (lines 402-429): log the report line
(memory + logs table), then build the report object — whose `executionTime`
field dereferences `execution.completedAt!.getTime()`.  When `completedAt`
has never been set (true of every first attempt, since it is only assigned
after this call returns) the dereference of `undefined` throws a TypeError,
which the caller's catch turns into a job failure. -/
def generateReportTM (e : TaskExecution) :
    TaskExecution × List DbEvent × Except String Unit :=
  let msg := "INFO: 生成渗透测试报告"
  let e := { e with logs := e.logs ++ [msg] }
  let evs := [DbEvent.appendLog msg]
  match e.completedAt with
  | none => (e, evs, .error "Cannot read properties of undefined (reading getTime)")
  | some _ =>
    match e.startedAt with
    | none => (e, evs, .error "Cannot read properties of undefined (reading getTime)")
    | some _ => (e, evs, .ok ())

/-- The catch block of `executeTask` (lines 293-313): mark the record failed,
record the error, stamp completion, push the failure log line (memory only) and
upsert the failed row; the error is rethrown to the queue backend. -/
def failExecution (st : SysState) (jobId : String) (e : TaskExecution) (now : Nat)
    (evs : List DbEvent) (msg : String) : SysState × List DbEvent × Except String Unit :=
  let e' :=
    { e with
      status := .failed, error := some msg, completedAt := some now,
      logs := e.logs ++ ["任务失败: " ++ msg] }
  (setActive st jobId e',
   evs ++ [DbEvent.upsert .failed e'.progress e'.currentStage e'.startedAt (some now) (some msg)],
   .error msg)

/-- Embeds `TaskManager.executeTask` (lines 198-314).  Throws
`Task execution not found` — before touching any state — when the job id is
absent from the in-memory map.  Otherwise: mark running and stamp the start
time, persist that row twice (lines 211-233), run AI-service setup, record
checkpoint 10, run the chain stage (with its embedded verification pass),
record checkpoint 80, build the report, then record checkpoint 100 and
persist the completed row twice (lines 260-280).  Any stage error falls into
`failExecution`. -/
def executeTask (st : SysState) (jobId : String) (collab : Collab) (now : Nat) :
    SysState × List DbEvent × Except String Unit :=
  match lookupActive st jobId with
  | none => (st, [], .error "Task execution not found")
  | some exec0 =>
    let e :=
      { exec0 with
        status := .running, startedAt := some now, currentStage := "初始化AI服务" }
    let ev0 := DbEvent.upsert .running e.progress "初始化AI服务" (some now) none none
    let evs := [ev0, ev0]
    match collab.llmInit with
    | .error m => failExecution st jobId e now evs m
    | .ok _ =>
      let e := { e with progress := 10, currentStage := "目标分析" }
      let up1 := updateExecutionProgress e 10 "目标分析"
      let e := up1.1
      let evs := evs ++ up1.2
      let chain := executePentestChain e collab
      let e := chain.1
      let evs := evs ++ chain.2.1
      match chain.2.2 with
      | .error m => failExecution st jobId e now evs m
      | .ok pair =>
        let e :=
          { e with
            results := pair.1, vulnerabilities := pair.2,
            progress := 80, currentStage := "生成报告" }
        let up2 := updateExecutionProgress e 80 "生成报告"
        let e := up2.1
        let evs := evs ++ up2.2
        let rep := generateReportTM e
        let e := rep.1
        let evs := evs ++ rep.2.1
        match rep.2.2 with
        | .error m => failExecution st jobId e now evs m
        | .ok _ =>
          let e :=
            { e with
              progress := 100, currentStage := "任务完成",
              status := .completed, completedAt := some now }
          let up3 := updateExecutionProgress e 100 "任务完成"
          let e := up3.1
          let evF := DbEvent.upsert .completed 100 "任务完成" e.startedAt e.completedAt none
          (setActive st jobId e, evs ++ up3.2 ++ [evF, evF], .ok ())

/-- The sequence of progress values persisted by a run, in write order. -/
def persistedProgress (evs : List DbEvent) : List Nat :=
  evs.filterMap (fun ev =>
    match ev with
    | .upsert _ p _ _ _ _ => some p
    | .appendLog _ => none)

/-- Is a list of naturals non-decreasing? -/
def nonDecreasing : List Nat → Bool
  | [] => true
  | [_] => true
  | a :: b :: t => Nat.ble a b && nonDecreasing (b :: t)

/-- Looking up a job right after `setActive` yields the stored record. -/
theorem lookupActive_setActive (st : SysState) (jobId : String) (e : TaskExecution) :
    lookupActive (setActive st jobId e) jobId = some e := by
  simp [lookupActive, setActive, List.find?_cons_of_pos]

/-- `setActive` does not touch the Bull queue. -/
theorem getQueueJob_setActive (st : SysState) (j k : String) (e : TaskExecution) :
    getQueueJob (setActive st j e) k = getQueueJob st k := rfl

/-- C4: `createTask` returns the `(taskId, jobId)` pair with no pipeline stage
having run, and an immediately following `getTaskStatus` for that job id
reports status `pending` with progress 0 — on both the queue path and the
inline-fallback path. -/
theorem createTask_pending_progress_zero
    (st : SysState) (taskConfig : TaskConfig) (jobId : String) (now : Nat)
    (queueOk : Bool) :
    (createTask st taskConfig jobId now queueOk).2 = (taskConfig.id, jobId) ∧
    (getTaskStatus (createTask st taskConfig jobId now queueOk).1 jobId).map
        (fun e => (e.status, e.progress))
      = some (TaskStatus.pending, 0) := by
  cases queueOk <;>
    simp [createTask, getTaskStatus, lookupActive, setActive, appendLogDb,
      upsertExecutionDb, List.find?_cons_of_pos]

/-- C10: when the job id is absent from the in-memory `activeExecutions` map,
`executeTask` throws `Task execution not found` with the state untouched and
no database write performed — a record living only in the persistent store can
be queried but never run. -/
theorem executeTask_requires_active_entry
    (st : SysState) (jobId : String) (collab : Collab) (now : Nat)
    (h : lookupActive st jobId = none) :
    executeTask st jobId collab now = (st, [], .error "Task execution not found") := by
  unfold executeTask
  rw [h]

/-- The state of a fresh orchestrator instance. -/
def emptySysState : SysState :=
  { activeExecutions := [], dbTasks := [], dbExecutions := [], dbLogs := [],
    queue := [], nextBullId := 1, deferredInline := [] }

/-- Collaborator behaviour used by the concrete scenarios: AI setup succeeds,
the chain succeeds with one result and no findings, POC runs are unconfirmed. -/
def demoCollab : Collab :=
  { llmInit := .ok (),
    chainRes := .ok { success := true, results := ["recon"], vulnerabilities := [] },
    pocRes := fun _ => .ok false }

/-- C10 witness: on an empty orchestrator the unknown job id is rejected
verbatim. -/
theorem executeTask_requires_active_entry_witness :
    executeTask emptySysState "job-x" demoCollab 0
      = (emptySysState, [], .error "Task execution not found") :=
  executeTask_requires_active_entry emptySysState "job-x" demoCollab 0 rfl

/-- C6: cancelling a job whose record is terminal (`completed` or `failed`)
returns false and leaves the whole state — hence the job's execution record —
unchanged.  The queue hypothesis states that Bull's key space does not contain
the uuid job id, which holds in the running system because Bull keys are the
decimal rendering of its counter while job ids are hyphenated uuids. -/
theorem cancelTask_terminal_returns_false
    (st : SysState) (jobId : String) (now : Nat) (e : TaskExecution)
    (hrec : getTaskStatus st jobId = some e)
    (hterm : e.status = TaskStatus.completed ∨ e.status = TaskStatus.failed)
    (hq : ∀ entry ∈ st.queue, entry.bullId ≠ jobId) :
    cancelTask st jobId now = (st, false) := by
  have hnone : getQueueJob st jobId = none := by
    unfold getQueueJob
    refine List.find?_eq_none.mpr ?_
    intro entry hmem
    simpa using hq entry hmem
  unfold cancelTask
  rw [hnone]

/-- A terminal (completed) execution record. -/
def doneExecution : TaskExecution :=
  { jobId := "aaaa-bbbb", taskId := "t1", status := .completed, progress := 100,
    currentStage := "任务完成", results := [], vulnerabilities := [], logs := [],
    startedAt := some 5, completedAt := some 9, error := none }

/-- A state holding the completed record and an unrelated queued job. -/
def terminalDemoState : SysState :=
  { activeExecutions := [("aaaa-bbbb", doneExecution)], dbTasks := [],
    dbExecutions := [], dbLogs := [],
    queue := [{ bullId := "3", jobId := "cccc-dddd", priority := 1 }],
    nextBullId := 4, deferredInline := [] }

/-- C6 witness: cancel on the concrete completed job returns false and changes
nothing. -/
theorem cancelTask_terminal_returns_false_witness :
    cancelTask terminalDemoState "aaaa-bbbb" 42 = (terminalDemoState, false) :=
  cancelTask_terminal_returns_false terminalDemoState "aaaa-bbbb" 42 doneExecution
    rfl (Or.inl rfl) (by decide)

/-- C7: for a running job, `pauseTask` immediately followed by `resumeTask`
leaves the job with status `running`, and the previously accumulated results,
findings and log lines are all still present — whether or not Bull can locate
the underlying queue unit. -/
theorem pause_then_resume_keeps_running_and_findings
    (st : SysState) (jobId : String) (e : TaskExecution)
    (hrec : lookupActive st jobId = some e)
    (hrun : e.status = TaskStatus.running) :
    (lookupActive (resumeTask (pauseTask st jobId).1 jobId).1 jobId).map
        (fun r => (r.status, r.results, r.vulnerabilities, r.logs))
      = some (TaskStatus.running, e.results, e.vulnerabilities, e.logs) := by
  unfold pauseTask
  cases hq : getQueueJob st jobId with
  | none =>
    dsimp only
    unfold resumeTask
    rw [hq]
    dsimp only
    rw [hrec]
    simp [hrun]
  | some entry =>
    dsimp only
    rw [hrec]
    dsimp only
    unfold resumeTask
    rw [getQueueJob_setActive, hq]
    dsimp only
    rw [lookupActive_setActive]
    dsimp only
    rw [lookupActive_setActive]
    rfl

/-- A running execution record with accumulated results, findings and logs. -/
def runningExecution : TaskExecution :=
  { jobId := "eeee-ffff", taskId := "t2", status := .running, progress := 40,
    currentStage := "执行渗透测试链", results := ["r0"],
    vulnerabilities := [{ vid := "v1", title := "SQLi", severity := "high" }],
    logs := ["INFO: 开始执行渗透测试链"], startedAt := some 7 }

/-- A state holding the running record and an unrelated queued job. -/
def runningDemoState : SysState :=
  { activeExecutions := [("eeee-ffff", runningExecution)], dbTasks := [],
    dbExecutions := [], dbLogs := [],
    queue := [{ bullId := "7", jobId := "gggg-hhhh", priority := 2 }],
    nextBullId := 8, deferredInline := [] }

/-- C7 witness: the concrete pause/resume pair preserves status and data. -/
theorem pause_then_resume_keeps_running_and_findings_witness :
    (lookupActive (resumeTask (pauseTask runningDemoState "eeee-ffff").1 "eeee-ffff").1
          "eeee-ffff").map (fun r => (r.status, r.results, r.vulnerabilities, r.logs))
      = some (TaskStatus.running, runningExecution.results,
          runningExecution.vulnerabilities, runningExecution.logs) :=
  pause_then_resume_keeps_running_and_findings runningDemoState "eeee-ffff"
    runningExecution rfl rfl

/-- Submission used by the concrete pipeline scenarios. -/
def demoTaskConfig : TaskConfig :=
  { id := "task-1", name := "t1", target := "example.com", aiModel := "openai",
    priority := 3 }

/-- State right after submitting the demo task (job id `job-1`). -/
def demoState : SysState :=
  (createTask emptySysState demoTaskConfig "job-1" 100 true).1

/-- First execution attempt of `job-1`. -/
def demoRun1 : SysState × List DbEvent × Except String Unit :=
  executeTask demoState "job-1" demoCollab 200

/-- Second execution attempt of `job-1` — what Bull's retry (`attempts: 3` in
the queue options) performs after the first attempt threw. -/
def demoRun2 : SysState × List DbEvent × Except String Unit :=
  executeTask demoRun1.1 "job-1" demoCollab 300

/-- C5 (code bug): on the first execution attempt of a freshly created job —
AI setup and chain both succeeding — the pipeline persists checkpoints 10
(after initialization) and 80 (after chain execution), but report assembly
dereferences the still-unset completion timestamp (`completedAt` is only
assigned after `generateReport` returns), throws a TypeError, and the job is
marked failed at progress 80: the contractual checkpoint 100 is never
recorded and the attempt never completes. -/
theorem executeTask_first_attempt_never_reaches_100 :
    persistedProgress demoRun1.2.1 = [0, 0, 10, 80, 80] ∧
    demoRun1.2.2 = .error "Cannot read properties of undefined (reading getTime)" ∧
    (lookupActive demoRun1.1 "job-1").map (fun e => (e.status, e.progress))
      = some (TaskStatus.failed, 80) ∧
    (persistedProgress demoRun1.2.1).contains 100 = false :=
  ⟨rfl, rfl, rfl, rfl⟩

/-- C3 (code bug): Bull retries failed jobs, and every first attempt fails at
report assembly (see the C5 theorem), so the same job id is re-executed.  The
retry attempt first re-persists the stale progress 80 when entering the
running state and then records the initialization checkpoint 10 — lowering
the persisted progress for the job from 80 to 10 within that single execution
attempt, refuting monotonicity. -/
theorem executeTask_retry_lowers_progress :
    persistedProgress demoRun2.2.1 = [80, 80, 10, 80, 100, 100, 100] ∧
    nonDecreasing (persistedProgress demoRun2.2.1) = false :=
  ⟨rfl, rfl⟩

end ObsidianMind
